import Mathlib

/-
Verification of the NeonFS core against its specification.

The development shallow-embeds the C++ sources of the repository:
  - src/include/NeonFS/core/result.hpp            (Result sum type)
  - src/src/security/aes_encryption_provider.cpp  (AESEncryptionProvider)
  - src/src/security/aes_gcm_ctx_pool.cpp         (AESGCMCtxPool)
  - src/tests/storage/block_storage.cpp           (BlockStorage)

Byte sequences are embedded as List Nat, machine integers as Nat/Int.
The OpenSSL EVP AES-256-GCM primitive is not part of the repository; where a
claim depends on it, it is modelled from the specification (see the
definitions marked "Modelled from the spec").
-/

namespace NeonFS

/-- Error record of the Result sum type (result.hpp): message plus integer code. -/
structure Error where
  message : String
  code : Int
deriving DecidableEq, Repr

/-- Result sum type from include/NeonFS/core/result.hpp: either a success
payload or an Error record. -/
inductive Result (α : Type) where
  | ok : α → Result α
  | err : Error → Result α
deriving DecidableEq, Repr

/-- Result is_ok from result.hpp. -/
def Result.is_ok {α : Type} : Result α → Bool
  | .ok _ => true
  | .err _ => false

/-- Result is_err from result.hpp. -/
def Result.is_err {α : Type} : Result α → Bool
  | .ok _ => false
  | .err _ => true

/-! ## AES-256-GCM primitive model

The encryption provider calls OpenSSL EVP (EVP_EncryptInit_ex,
EVP_EncryptUpdate, EVP_CIPHER_CTX_ctrl, ...), which is an external library and
not part of the repository. The definitions below model that primitive from
the spec: AES-256-GCM is counter-mode XOR of the plaintext with a keystream
derived from key and IV (so ciphertext length equals plaintext length and
decryption is the same XOR), plus a 16-byte authentication tag that is a
deterministic function of key, IV and ciphertext. -/

/-- Modelled from the spec: an abstract pseudorandom accumulator over a byte
list, standing in for the AES block function inside OpenSSL (absent from the
repository). Any concrete function works; the claims never depend on its
cryptographic strength. -/
def byteFold (seed : Nat) (l : List Nat) : Nat :=
  l.foldl (fun a b => (a * 131 + b + 1) % 4294967291) seed

/-- Modelled from the spec: the AES-256-GCM keystream byte at position i for a
given key and IV (OpenSSL EVP counter mode, absent from the repository). -/
def gcmKeystream (key iv : List Nat) (i : Nat) : Nat :=
  (byteFold 17 key * 31 + byteFold 19 iv * 37 + i * 97 + 5) % 256

/-- Counter-mode XOR of a byte list with the keystream, starting at counter i.
Encryption and decryption are both this function. -/
def ctrXor (key iv : List Nat) : Nat → List Nat → List Nat
  | _, [] => []
  | i, b :: bs => (b ^^^ gcmKeystream key iv i) :: ctrXor key iv (i + 1) bs

/-- Modelled from the spec: EVP_EncryptUpdate for AES-256-GCM (absent from the
repository) — ciphertext is plaintext XOR keystream. -/
def gcmEncryptBytes (key iv plain : List Nat) : List Nat :=
  ctrXor key iv 0 plain

/-- Modelled from the spec: EVP_DecryptUpdate for AES-256-GCM (absent from the
repository) — plaintext is ciphertext XOR keystream. -/
def gcmDecryptBytes (key iv cipher : List Nat) : List Nat :=
  ctrXor key iv 0 cipher

/-- Modelled from the spec: the 16-byte GCM authentication tag extracted by
EVP_CTRL_GCM_GET_TAG and verified by EVP_DecryptFinal_ex (absent from the
repository) — a deterministic 16-byte function of key, IV and ciphertext. -/
def gcmTag (key iv cipher : List Nat) : List Nat :=
  let h := byteFold 17 key * 29 + byteFold 19 iv * 41 + byteFold 23 cipher * 43
  (List.range 16).map (fun i => (h * (i + 3) + i * i + 1) % 256)

theorem ctrXor_length (key iv : List Nat) : ∀ (i : Nat) (l : List Nat), (ctrXor key iv i l).length = l.length := by
  intro i l
  induction l generalizing i with
  | nil => rfl
  | cons b bs ih => simp [ctrXor, ih]

theorem ctrXor_ctrXor (key iv : List Nat) : ∀ (i : Nat) (l : List Nat), ctrXor key iv i (ctrXor key iv i l) = l := by
  intro i l
  induction l generalizing i with
  | nil => rfl
  | cons b bs ih =>
    simp [ctrXor, ih, Nat.xor_assoc, Nat.xor_self, Nat.xor_zero]

theorem gcmTag_length (key iv cipher : List Nat) : (gcmTag key iv cipher).length = 16 := by
  simp [gcmTag]

namespace security

/-! ## AESEncryptionProvider (src/src/security/aes_encryption_provider.cpp)

The provider is embedded as functions of the master key. The in/out IV and
tag buffers become explicit arguments and explicit components of the return
value. RAND_bytes is modelled by an explicit rand argument: rand n stands for
the n bytes the secure RNG writes (the repository treats RAND_bytes as
succeeding and filling the whole resized buffer; a failing RNG returns an
error before any use of the IV, a path not exercised by the claims). -/

/-- Constant iv_size of AESEncryptionProvider: 12. -/
def iv_size : Nat := 12

/-- Constant tag_size of AESEncryptionProvider: 16. -/
def tag_size : Nat := 16

/-- Return value of encrypt: the Result plus the final contents of the in/out
IV and tag buffers. -/
structure EncryptOutput where
  result : Result (List Nat)
  iv : List Nat
  tag : List Nat
deriving DecidableEq, Repr

/-- Body of AESEncryptionProvider::encrypt after the IV has been settled:
zero the tag buffer, run the cipher, check the ciphertext length, extract the
tag (aes_encryption_provider.cpp lines 30-81). -/
def encryptBody (key iv plain : List Nat) : EncryptOutput :=
  let tag0 := List.replicate tag_size 0
  let ciphertext := gcmEncryptBytes key iv plain
  if ciphertext.length ≠ plain.length then
    { result := .err ⟨"Ciphertext size does not match plaintext size.", 0⟩, iv := iv, tag := tag0 }
  else
    { result := .ok ciphertext, iv := iv, tag := gcmTag key iv ciphertext }

/-- AESEncryptionProvider::encrypt (aes_encryption_provider.cpp lines 9-82):
validate the key, auto-generate the IV when the caller's buffer is empty,
reject a non-empty IV of wrong size, then encrypt. -/
def encrypt (key plain outIV outTag : List Nat) (rand : Nat → List Nat) : EncryptOutput :=
  if key.length ≠ 32 then
    { result := .err ⟨"Invalid key size: expected 32 bytes", 0⟩, iv := outIV, tag := outTag }
  else if outIV = [] then
    encryptBody key (rand iv_size) plain
  else if outIV.length ≠ iv_size then
    { result := .err ⟨"Invalid IV size: expected 12 bytes", 0⟩, iv := outIV, tag := outTag }
  else
    encryptBody key outIV plain

/-- AESEncryptionProvider::decrypt (aes_encryption_provider.cpp lines 84-150):
validate key, IV, tag and non-emptiness of the ciphertext, run the cipher,
verify the authentication tag (EVP_DecryptFinal_ex), return the plaintext. -/
def decrypt (key cipher iv tag : List Nat) : Result (List Nat) :=
  if key.length ≠ 32 then
    .err ⟨"Invalid key size: expected 32 bytes", 0⟩
  else if iv = [] ∨ iv.length ≠ iv_size then
    .err ⟨"Invalid IV: must be exactly 12 bytes", 0⟩
  else if tag = [] ∨ tag.length ≠ tag_size then
    .err ⟨"Invalid tag: must be exactly 16 bytes", 0⟩
  else if cipher = [] then
    .err ⟨"Ciphertext cannot be empty", 0⟩
  else
    let plaintext := gcmDecryptBytes key iv cipher
    if gcmTag key iv cipher = tag then
      .ok plaintext
    else
      .err ⟨"Decryption failed: Invalid tag or corrupted data.", 0⟩

/-! ## AESGCMCtxPool (src/src/security/aes_gcm_ctx_pool.cpp)

The pool's concurrent behaviour is embedded as a transition system. A state
records the number of idle contexts on the stack (pool.size()), the
high-water count of ever-created contexts (currentSize), and the number of
contexts currently lent out through live Handles. maxPoolSize is a parameter
of the relation. A blocked acquire (the condition-variable wait at lines
49-54) completes only when the stack is non-empty, which is exactly the
acquireIdle transition, so acquire completion is covered by the two acquire
transitions below. -/

/-- Abstract state of an AESGCMCtxPool: idle = pool.size(), created =
currentSize (high-water, never decremented), leased = live Handles. -/
structure PoolState where
  idle : Nat
  created : Nat
  leased : Nat
deriving DecidableEq, Repr

/-- One observable transition of an AESGCMCtxPool (acquire completing, or a
Handle releasing its context), from aes_gcm_ctx_pool.cpp lines 36-62. -/
inductive PoolStep (maxPoolSize : Nat) : PoolState → PoolState → Prop
  /-- acquire, stack non-empty: pop an idle context and lend it out. -/
  | acquireIdle (s : PoolState) (h : 0 < s.idle) :
      PoolStep maxPoolSize s ⟨s.idle - 1, s.created, s.leased + 1⟩
  /-- acquire, stack empty but currentSize below maxPoolSize: increment the
  high-water count and lend a freshly constructed context. -/
  | acquireFresh (s : PoolState) (h0 : s.idle = 0) (h : s.created < maxPoolSize) :
      PoolStep maxPoolSize s ⟨s.idle, s.created + 1, s.leased + 1⟩
  /-- release from a Handle: reset the context, push it on the stack, notify
  one waiter. -/
  | release (s : PoolState) (h : 0 < s.leased) :
      PoolStep maxPoolSize s ⟨s.idle + 1, s.created, s.leased - 1⟩

/-- States reachable from the initial pool state (empty stack, zero
high-water count, no handles). -/
inductive PoolReachable (maxPoolSize : Nat) : PoolState → Prop
  | init : PoolReachable maxPoolSize ⟨0, 0, 0⟩
  | step {s t : PoolState} : PoolReachable maxPoolSize s →
      PoolStep maxPoolSize s t → PoolReachable maxPoolSize t

/-- An acquire call can complete in state s without waiting for a release:
either an idle context is on the stack, or the high-water count is below
maxPoolSize. -/
def acquireEnabled (maxPoolSize : Nat) (s : PoolState) : Prop :=
  0 < s.idle ∨ s.created < maxPoolSize

instance (maxPoolSize : Nat) (s : PoolState) : Decidable (acquireEnabled maxPoolSize s) := by
  unfold acquireEnabled; infer_instance

end security

namespace storage

/-! ## BlockStorage (src/tests/storage/block_storage.cpp)

The fstream is embedded by carrying the opened file's byte content in the
state; the host filesystem entry handed to mount is an Option (List Nat)
(none when no file can be opened at the path). Seeks are modelled as always
succeeding (an fstream may seek past the end of file), a read returns the
bytes that exist between the offset and end of file, and a write past the end
extends the file, zero-filling any gap. -/

/-- BlockStorageConfig from include/NeonFS/core/types.h. -/
structure BlockStorageConfig where
  block_size : Nat
  total_size : Nat
deriving DecidableEq, Repr

/-- State of a BlockStorage instance (include/NeonFS/storage/block_storage.h):
path, is_mounted, block_size_, total_blocks_, and the content of the file
behind the open fstream. -/
structure BlockStorage where
  path : String
  is_mounted : Bool
  block_size_ : Nat
  total_blocks_ : Nat
  content : List Nat
deriving DecidableEq, Repr

/-- A freshly constructed BlockStorage: not mounted, zero geometry. -/
def BlockStorage.init : BlockStorage :=
  { path := "", is_mounted := false, block_size_ := 0, total_blocks_ := 0, content := [] }

/-- BlockStorage::getBlockCount (block_storage.cpp lines 153-155): returns
total_blocks_. -/
def BlockStorage.getBlockCount (s : BlockStorage) : Nat :=
  s.total_blocks_

/-- BlockStorage::getBlockSize (block_storage.cpp lines 157-159). -/
def BlockStorage.getBlockSize (s : BlockStorage) : Nat :=
  s.block_size_

/-- BlockStorage::mount (block_storage.cpp lines 13-33). file is the content
of the filesystem entry at the path (none when opening fails, e.g. the file
does not exist). The source assigns path before opening, opens the stream,
and on success records the geometry: block_size_ from the config and
total_blocks_ set to the config's total_size field. -/
def BlockStorage.mount (s : BlockStorage) (path : String) (config : BlockStorageConfig)
    (file : Option (List Nat)) : Result Unit × BlockStorage :=
  if s.is_mounted then
    (.err ⟨"Storage is already mounted", -1⟩, s)
  else if path = "" then
    (.err ⟨"Mount path cannot be empty", -2⟩, s)
  else
    match file with
    | none => (.err ⟨"Failed to open storage file: " ++ path, -3⟩, { s with path := path })
    | some bytes =>
        (.ok (), { s with path := path, is_mounted := true,
                          block_size_ := config.block_size,
                          total_blocks_ := config.total_size,
                          content := bytes })

/-- BlockStorage::unmount (block_storage.cpp lines 35-48); the close is
modelled as succeeding. -/
def BlockStorage.unmount (s : BlockStorage) : Result Unit × BlockStorage :=
  if s.is_mounted = false then
    (.err ⟨"Storage is not mounted", -1⟩, s)
  else
    (.ok (), { s with is_mounted := false })

/-- BlockStorage::create (block_storage.cpp lines 54-70), faithfully keeping
the source's division block_size / total_size. On success the file written at
the path holds block_count blocks of block_size zero bytes. The ofstream open
is modelled as succeeding. -/
def BlockStorage.create (path : String) (config : BlockStorageConfig) :
    Result Unit × Option (List Nat) :=
  let block_count := config.block_size / config.total_size
  if block_count < 1 then
    (.err ⟨"Invalid block count", -1⟩, none)
  else if path = "" then
    (.err ⟨"Mount path cannot be empty", -2⟩, none)
  else
    (.ok (), some (List.replicate (block_count * config.block_size) 0))

/-- BlockStorage::readBlock (block_storage.cpp lines 72-95): bound check
against getBlockCount, seek to blockID * block_size_, read block_size_ bytes;
a short read (gcount below block_size_) is the -4 error. -/
def BlockStorage.readBlock (s : BlockStorage) (blockID : Nat) : Result (List Nat) :=
  if s.is_mounted = false then
    .err ⟨"Storage is not mounted", -1⟩
  else if s.getBlockCount ≤ blockID then
    .err ⟨"Invalid block ID", -2⟩
  else
    let offset := blockID * s.block_size_
    let data := (s.content.drop offset).take s.block_size_
    if data.length ≠ s.block_size_ then
      .err ⟨"Incomplete block read", -4⟩
    else
      .ok data

/-- BlockStorage::writeBlock (block_storage.cpp lines 97-136). data is passed
by non-const reference in the source and padded in place; the returned triple
carries the Result, the caller's buffer after the call, and the new storage
state. The source's second size check and resize (lines 113-119) run after
the padding has already made the buffer exactly block_size_ long and are kept
verbatim. -/
def BlockStorage.writeBlock (s : BlockStorage) (blockID : Nat) (data : List Nat) :
    Result Unit × List Nat × BlockStorage :=
  if s.is_mounted = false then
    (.err ⟨"Storage is not mounted", -1⟩, data, s)
  else if s.getBlockCount ≤ blockID then
    (.err ⟨"Invalid block ID", -2⟩, data, s)
  else if s.block_size_ < data.length then
    (.err ⟨"Data size exceeds block size", -3⟩, data, s)
  else
    let data1 := if data.length < s.block_size_ then
        data ++ List.replicate (s.block_size_ - data.length) 0
      else data
    if s.block_size_ < data1.length then
      (.err ⟨"Data size does not match block size", -3⟩, data1, s)
    else
      let data2 := if data1.length < s.block_size_ then
          data1 ++ List.replicate (s.block_size_ - data1.length) 0
        else data1
      let offset := blockID * s.block_size_
      let content1 := s.content.take offset ++ List.replicate (offset - s.content.length) 0
          ++ data2 ++ s.content.drop (offset + s.block_size_)
      (.ok (), data2, { s with content := content1 })

/-- BlockStorage::flush (block_storage.cpp lines 138-151); the stream flush is
modelled as succeeding. -/
def BlockStorage.flush (s : BlockStorage) : Result Unit × BlockStorage :=
  if s.is_mounted = false then
    (.err ⟨"Storage is not mounted", 0⟩, s)
  else
    (.ok (), s)

end storage

/-! ## Theorems for the claims -/

open storage in
/-- C2: the claim says create(path, config) with block_size 512 and total_size
5120 (a positive whole multiple) succeeds and writes a 5120-byte zero file.
The source computes block_count as block_size / total_size (the operands
swapped), so at this valid configuration it returns the error "Invalid block
count" with code -1 and writes nothing — the same input the repository's own
CreateStorage test expects to succeed. -/
theorem create_valid_config_rejected :
    BlockStorage.create "valid_create.bin" ⟨512, 5120⟩ =
      (Result.err ⟨"Invalid block count", -1⟩, none) := by
  rfl

open storage in
/-- C3: the claim says mounting an existing file whose length differs from
block_size * block_count fails with code -5, leaving the instance unchanged.
The source performs no length check at all: mounting the repository's own
9-byte "CORRUPTED" test file under a 4096 x 100 geometry returns ok and
leaves the instance mounted, while the FileValidation test expects code -5. -/
theorem mount_length_mismatch_accepted :
    (BlockStorage.init.mount "corrupted.bin" ⟨4096, 409600⟩
        (some [67, 79, 82, 82, 85, 80, 84, 69, 68])).1 = Result.ok ()
    ∧ ((BlockStorage.init.mount "corrupted.bin" ⟨4096, 409600⟩
        (some [67, 79, 82, 82, 85, 80, 84, 69, 68])).2).is_mounted = true := by
  exact ⟨rfl, rfl⟩

open storage in
/-- C4: the claim says getBlockCount() returns total_size / block_size after a
successful mount. The source stores config.total_size itself in total_blocks_
(block_storage.cpp line 31), so after mounting a 64-byte file with block_size
8 and total_size 64, getBlockCount() is 64, not 64 / 8 = 8. -/
theorem getBlockCount_returns_total_size :
    (BlockStorage.init.mount "test.bin" ⟨8, 64⟩ (some (List.replicate 64 0))).1 = Result.ok ()
    ∧ ((BlockStorage.init.mount "test.bin" ⟨8, 64⟩ (some (List.replicate 64 0))).2).getBlockCount = 64
    ∧ ((BlockStorage.init.mount "test.bin" ⟨8, 64⟩ (some (List.replicate 64 0))).2).getBlockCount ≠ 64 / 8 := by
  refine ⟨rfl, rfl, by decide⟩

open storage in
/-- C5: the claim says any block_id at or beyond total_size / block_size draws
the "Invalid block ID" error with code -2 from both readBlock and writeBlock.
With block_size 8 and total_size 64 the claim's block count is 8, yet at
block_id 10 the source (which compares against total_blocks_ = 64) reads past
the end of the file and fails with "Incomplete block read" code -4, and its
writeBlock succeeds, extending the file — the latter contradicting the
repository's own ReadWriteOperations test, which expects an out-of-range
write to fail. -/
theorem blockId_bound_check_uses_total_size :
    ((BlockStorage.init.mount "test.bin" ⟨8, 64⟩ (some (List.replicate 64 0))).2).readBlock 10 =
      Result.err ⟨"Incomplete block read", -4⟩
    ∧ (((BlockStorage.init.mount "test.bin" ⟨8, 64⟩ (some (List.replicate 64 0))).2).writeBlock 10
        (List.replicate 8 170)).1 = Result.ok () := by
  exact ⟨by decide, by decide⟩

open storage in
/-- C10: writeBlock pads the caller's buffer in place. Whenever the mounted
and block-id checks pass and the buffer is shorter than block_size_, after
the call the caller's vector holds the original bytes followed by zeros and
has length exactly block_size_; a buffer of exactly block_size_ bytes is left
unchanged. -/
theorem writeBlock_pads_caller_buffer (s : storage.BlockStorage) (blockID : Nat)
    (data : List Nat) (hm : s.is_mounted = true) (hid : blockID < s.getBlockCount) :
    (data.length < s.block_size_ →
        (s.writeBlock blockID data).2.1 = data ++ List.replicate (s.block_size_ - data.length) 0
        ∧ ((s.writeBlock blockID data).2.1).length = s.block_size_)
    ∧ (data.length = s.block_size_ → (s.writeBlock blockID data).2.1 = data) := by
  have h1 : ¬ (s.getBlockCount ≤ blockID) := Nat.not_le.mpr hid
  constructor
  · intro hlt
    have h2 : ¬ (s.block_size_ < data.length) := Nat.not_lt.mpr (Nat.le_of_lt hlt)
    have hlen : (data ++ List.replicate (s.block_size_ - data.length) 0).length = s.block_size_ := by
      simp only [List.length_append, List.length_replicate]
      omega
    refine ⟨?_, ?_⟩ <;>
      simp [storage.BlockStorage.writeBlock, hm, h1, h2, hlt, hlen]
  · intro heq
    have h2 : ¬ (s.block_size_ < data.length) := by omega
    have h3 : ¬ (data.length < s.block_size_) := by omega
    simp [storage.BlockStorage.writeBlock, hm, h1, h2, h3]

/-- A concrete mounted BlockStorage fixture: block size 8, total_blocks_ 64,
backed by a 64-byte zero file. -/
def mountedFixture : storage.BlockStorage :=
  { path := "p", is_mounted := true, block_size_ := 8, total_blocks_ := 64,
    content := List.replicate 64 0 }

open storage in
/-- C10 witness: on the concrete mounted fixture, a 3-byte buffer is padded in
place to 8 bytes. -/
theorem writeBlock_pads_caller_buffer_witness :
    mountedFixture.is_mounted = true
    ∧ 0 < mountedFixture.getBlockCount
    ∧ ((([187, 187, 187] : List Nat).length < mountedFixture.block_size_ →
        (mountedFixture.writeBlock 0 [187, 187, 187]).2.1
          = [187, 187, 187] ++ List.replicate (mountedFixture.block_size_ - ([187, 187, 187] : List Nat).length) 0
        ∧ ((mountedFixture.writeBlock 0 [187, 187, 187]).2.1).length = mountedFixture.block_size_)
      ∧ (([187, 187, 187] : List Nat).length = mountedFixture.block_size_ →
        (mountedFixture.writeBlock 0 [187, 187, 187]).2.1 = [187, 187, 187])) :=
  ⟨rfl, by decide,
    writeBlock_pads_caller_buffer mountedFixture 0 [187, 187, 187] rfl (by decide)⟩

/-- Helper: states reachable in the pool transition system satisfy the
counting invariant leased + idle ≤ created ≤ maxPoolSize. -/
theorem pool_reachable_invariant (m : Nat) (s : security.PoolState)
    (h : security.PoolReachable m s) : s.leased + s.idle ≤ s.created ∧ s.created ≤ m := by
  induction h with
  | init => exact ⟨Nat.le_refl 0, Nat.zero_le m⟩
  | step hr hstep ih =>
    obtain ⟨ih1, ih2⟩ := ih
    cases hstep with
    | acquireIdle h => exact ⟨by dsimp only; omega, by dsimp only; omega⟩
    | acquireFresh h0 h => exact ⟨by dsimp only; omega, by dsimp only; omega⟩
    | release h => exact ⟨by dsimp only; omega, by dsimp only; omega⟩

/-- C7: in every reachable pool state the number of contexts lent out never
exceeds maxPoolSize, and in a state with maxPoolSize contexts lent out no
acquire can complete (the stack is empty and the high-water count is at the
bound), so a further acquire waits until a release pushes a context back. -/
theorem pool_lease_bound (m : Nat) (s : security.PoolState)
    (h : security.PoolReachable m s) :
    s.leased ≤ m ∧ (s.leased = m → ¬ security.acquireEnabled m s) := by
  obtain ⟨h1, h2⟩ := pool_reachable_invariant m s h
  refine ⟨by omega, ?_⟩
  intro hfull hen
  cases hen with
  | inl hidle => omega
  | inr hcap => omega

/-- C7 witness: with maxPoolSize 1, the state after one fresh acquire is
reachable, has one context lent out, and enables no acquire. -/
theorem pool_lease_bound_witness :
    security.PoolReachable 1 ⟨0, 1, 1⟩
    ∧ ((⟨0, 1, 1⟩ : security.PoolState).leased ≤ 1
       ∧ ((⟨0, 1, 1⟩ : security.PoolState).leased = 1 →
            ¬ security.acquireEnabled 1 ⟨0, 1, 1⟩)) :=
  have h : security.PoolReachable 1 ⟨0, 1, 1⟩ :=
    security.PoolReachable.step security.PoolReachable.init
      (security.PoolStep.acquireFresh ⟨0, 0, 0⟩ rfl Nat.zero_lt_one)
  ⟨h, pool_lease_bound 1 ⟨0, 1, 1⟩ h⟩

/-- Helper: the ciphertext the model produces always has the plaintext's
length, so encryptBody always reaches the success branch. -/
theorem encryptBody_eq (key iv plain : List Nat) :
    security.encryptBody key iv plain =
      { result := .ok (gcmEncryptBytes key iv plain), iv := iv,
        tag := gcmTag key iv (gcmEncryptBytes key iv plain) } := by
  simp [security.encryptBody, gcmEncryptBytes, ctrXor_length]

/-- Helper: a list of positive length is not nil. -/
theorem ne_nil_of_length_pos {l : List Nat} {n : Nat} (h : l.length = n) (hn : 0 < n) :
    l ≠ [] := by
  intro hnil
  subst hnil
  simp at h
  omega

/-- Helper: decrypting the output of encryptBody recovers a non-empty
plaintext, for a 32-byte key and a 12-byte IV. -/
theorem decrypt_encryptBody (key iv plain : List Nat) (hk : key.length = 32)
    (hiv : iv.length = security.iv_size) (hp : plain ≠ []) :
    security.decrypt key (gcmEncryptBytes key iv plain) iv
      (gcmTag key iv (gcmEncryptBytes key iv plain)) = Result.ok plain := by
  have hivne : iv ≠ [] := ne_nil_of_length_pos hiv (by simp [security.iv_size])
  have htag : (gcmTag key iv (gcmEncryptBytes key iv plain)).length = security.tag_size :=
    gcmTag_length key iv (gcmEncryptBytes key iv plain)
  have htagne : gcmTag key iv (gcmEncryptBytes key iv plain) ≠ [] :=
    ne_nil_of_length_pos htag (by simp [security.tag_size])
  have hcne : gcmEncryptBytes key iv plain ≠ [] := by
    intro hnil
    apply hp
    have := ctrXor_length key iv 0 plain
    rw [show gcmEncryptBytes key iv plain = ctrXor key iv 0 plain from rfl] at hnil
    rw [hnil] at this
    exact List.eq_nil_of_length_eq_zero this.symm
  simp only [security.decrypt, hk, hiv, htag, hivne, htagne, hcne]
  simp [gcmDecryptBytes, gcmEncryptBytes, ctrXor_ctrXor]

/-- C1 (amended to non-empty plaintexts): for every 32-byte key and every
non-empty plaintext, if encrypt succeeds and returns a ciphertext together
with the produced IV and tag, then decrypt on that triplet succeeds and
returns the plaintext byte for byte. The rand argument models the bytes
RAND_bytes writes; the incoming IV buffer is empty (provider generates) or
already 12 bytes, as the encrypt contract requires. -/
theorem encrypt_then_decrypt_roundtrip (key plain ivIn tagIn : List Nat)
    (rand : Nat → List Nat) (hk : key.length = 32) (hp : plain ≠ [])
    (hiv : ivIn = [] ∨ ivIn.length = security.iv_size)
    (hr : (rand security.iv_size).length = security.iv_size)
    (C : List Nat)
    (hC : (security.encrypt key plain ivIn tagIn rand).result = Result.ok C) :
    security.decrypt key C (security.encrypt key plain ivIn tagIn rand).iv
      (security.encrypt key plain ivIn tagIn rand).tag = Result.ok plain := by
  by_cases hnil : ivIn = []
  · have he : security.encrypt key plain ivIn tagIn rand =
        security.encryptBody key (rand security.iv_size) plain := by
      simp [security.encrypt, hk, hnil]
    rw [he, encryptBody_eq] at hC ⊢
    simp only at hC
    cases hC
    exact decrypt_encryptBody key (rand security.iv_size) plain hk hr hp
  · have hlen : ivIn.length = security.iv_size := hiv.resolve_left hnil
    have he : security.encrypt key plain ivIn tagIn rand =
        security.encryptBody key ivIn plain := by
      simp [security.encrypt, hk, hnil, hlen]
    rw [he, encryptBody_eq] at hC ⊢
    simp only at hC
    cases hC
    exact decrypt_encryptBody key ivIn plain hk hlen hp

/-- C1 witness: a concrete 32-byte key, the spec's concrete 8-byte plaintext,
an empty incoming IV buffer and a concrete RNG. -/
theorem encrypt_then_decrypt_roundtrip_witness :
    (List.replicate 32 7 : List Nat).length = 32
    ∧ ([0, 1, 2, 3, 4, 5, 6, 7] : List Nat) ≠ []
    ∧ (([] : List Nat) = [] ∨ ([] : List Nat).length = security.iv_size)
    ∧ ((fun n => List.replicate n 9) security.iv_size).length = security.iv_size
    ∧ (security.encrypt (List.replicate 32 7) [0, 1, 2, 3, 4, 5, 6, 7] [] []
        (fun n => List.replicate n 9)).result =
        Result.ok (gcmEncryptBytes (List.replicate 32 7) (List.replicate 12 9)
          [0, 1, 2, 3, 4, 5, 6, 7])
    ∧ security.decrypt (List.replicate 32 7)
        (gcmEncryptBytes (List.replicate 32 7) (List.replicate 12 9) [0, 1, 2, 3, 4, 5, 6, 7])
        (security.encrypt (List.replicate 32 7) [0, 1, 2, 3, 4, 5, 6, 7] [] []
          (fun n => List.replicate n 9)).iv
        (security.encrypt (List.replicate 32 7) [0, 1, 2, 3, 4, 5, 6, 7] [] []
          (fun n => List.replicate n 9)).tag = Result.ok [0, 1, 2, 3, 4, 5, 6, 7] :=
  ⟨by decide, by decide, Or.inl rfl, by decide, by decide,
    encrypt_then_decrypt_roundtrip (List.replicate 32 7) [0, 1, 2, 3, 4, 5, 6, 7] [] []
      (fun n => List.replicate n 9) (by decide) (by decide) (Or.inl rfl) (by decide)
      (gcmEncryptBytes (List.replicate 32 7) (List.replicate 12 9) [0, 1, 2, 3, 4, 5, 6, 7])
      (by decide)⟩

/-- C1 counterexample for the claim as stated: for the empty plaintext,
encrypt succeeds and returns the empty ciphertext, but decrypt on the
produced (ciphertext, IV, tag) triplet rejects it with "Ciphertext cannot be
empty" (aes_encryption_provider.cpp lines 102-104) instead of returning the
plaintext. -/
theorem roundtrip_fails_on_empty_plain :
    (security.encrypt (List.replicate 32 0) [] [] [] (fun n => List.replicate n 0)).result =
      Result.ok []
    ∧ security.decrypt (List.replicate 32 0) []
        (security.encrypt (List.replicate 32 0) [] [] [] (fun n => List.replicate n 0)).iv
        (security.encrypt (List.replicate 32 0) [] [] [] (fun n => List.replicate n 0)).tag
      = Result.err ⟨"Ciphertext cannot be empty", 0⟩ :=
  ⟨by decide, by decide⟩

/-- C6: whenever encrypt returns a success Result, the ciphertext has the
plaintext's length, the IV buffer ends up 12 bytes long and the tag buffer 16
bytes long; and for a valid key and IV buffer, an empty plaintext yields a
success carrying an empty ciphertext. -/
theorem encrypt_output_lengths (key plain ivIn tagIn : List Nat) (rand : Nat → List Nat)
    (hr : (rand security.iv_size).length = security.iv_size) :
    (∀ C, (security.encrypt key plain ivIn tagIn rand).result = Result.ok C →
        C.length = plain.length
        ∧ (security.encrypt key plain ivIn tagIn rand).iv.length = security.iv_size
        ∧ (security.encrypt key plain ivIn tagIn rand).tag.length = security.tag_size)
    ∧ (key.length = 32 → plain = [] → (ivIn = [] ∨ ivIn.length = security.iv_size) →
        (security.encrypt key plain ivIn tagIn rand).result = Result.ok []) := by
  constructor
  · intro C hC
    by_cases hk : key.length = 32
    · by_cases hnil : ivIn = []
      · have he : security.encrypt key plain ivIn tagIn rand =
            security.encryptBody key (rand security.iv_size) plain := by
          simp [security.encrypt, hk, hnil]
        rw [he, encryptBody_eq] at hC ⊢
        simp only at hC
        cases hC
        refine ⟨ctrXor_length key (rand security.iv_size) 0 plain, hr, ?_⟩
        exact gcmTag_length key (rand security.iv_size) _
      · by_cases hlen : ivIn.length = security.iv_size
        · have he : security.encrypt key plain ivIn tagIn rand =
              security.encryptBody key ivIn plain := by
            simp [security.encrypt, hk, hnil, hlen]
          rw [he, encryptBody_eq] at hC ⊢
          simp only at hC
          cases hC
          exact ⟨ctrXor_length key ivIn 0 plain, hlen, gcmTag_length key ivIn _⟩
        · exfalso
          simp [security.encrypt, hk, hnil, hlen] at hC
    · exfalso
      simp [security.encrypt, hk] at hC
  · intro hk hpe hiv
    subst hpe
    by_cases hnil : ivIn = []
    · simp [security.encrypt, hk, hnil, encryptBody_eq, gcmEncryptBytes, ctrXor]
    · have hlen : ivIn.length = security.iv_size := hiv.resolve_left hnil
      simp [security.encrypt, hk, hnil, hlen, encryptBody_eq, gcmEncryptBytes, ctrXor]

/-- C6 witness: concrete key, plaintext and RNG; both conjuncts evaluated at
the empty plaintext as well as a successful concrete encryption. -/
theorem encrypt_output_lengths_witness :
    ((fun n => List.replicate n 9) security.iv_size).length = security.iv_size
    ∧ (∀ C, (security.encrypt (List.replicate 32 7) [1, 2, 3] [] []
          (fun n => List.replicate n 9)).result = Result.ok C →
        C.length = ([1, 2, 3] : List Nat).length
        ∧ (security.encrypt (List.replicate 32 7) [1, 2, 3] [] []
            (fun n => List.replicate n 9)).iv.length = security.iv_size
        ∧ (security.encrypt (List.replicate 32 7) [1, 2, 3] [] []
            (fun n => List.replicate n 9)).tag.length = security.tag_size)
    ∧ ((List.replicate 32 7 : List Nat).length = 32 → ([1, 2, 3] : List Nat) = [] →
        (([] : List Nat) = [] ∨ ([] : List Nat).length = security.iv_size) →
        (security.encrypt (List.replicate 32 7) [1, 2, 3] [] []
          (fun n => List.replicate n 9)).result = Result.ok []) :=
  ⟨by decide,
    (encrypt_output_lengths (List.replicate 32 7) [1, 2, 3] [] []
      (fun n => List.replicate n 9) (by decide)).1,
    (encrypt_output_lengths (List.replicate 32 7) [1, 2, 3] [] []
      (fun n => List.replicate n 9) (by decide)).2⟩

open storage in
/-- C9: the claim says mount with config.block_size == 0 fails with code -6
and leaves the instance unmounted. The source never validates block_size: on
an existing file it returns ok and mounts with block_size_ = 0, while the
repository's own ConfigValidation test expects code -6. -/
theorem mount_zero_block_size_accepted :
    (BlockStorage.init.mount "test.bin" ⟨0, 64⟩ (some (List.replicate 64 0))).1 = Result.ok ()
    ∧ ((BlockStorage.init.mount "test.bin" ⟨0, 64⟩ (some (List.replicate 64 0))).2).is_mounted = true
    ∧ ((BlockStorage.init.mount "test.bin" ⟨0, 64⟩ (some (List.replicate 64 0))).2).getBlockSize = 0 := by
  exact ⟨rfl, rfl, rfl⟩

end NeonFS
